import Mathlib

/-!
Shallow embedding of the routing and admission-control engine of the
`oropendola_ai` repository, together with theorems checking the frozen
claims about it.

Sources embedded:
* `oropendola_ai/services/model_router.py`  — `ModelRouter.check_quota`,
  `ModelRouter.check_rate_limit`, `ModelRouter.select_model`,
  `ModelRouter.route_request`, `ModelRouter.try_fallback_models`.
* `oropendola_ai/services/smart_router.py`  — `SmartRouter.detect_task_complexity`,
  `SmartRouter.check_context_correlation`, the session-continuity slice of
  `SmartRouter.smart_route`, `SmartRouter._get_efficient_weights`,
  `SmartRouter.apply_mode_weights_to_plan`.
* `oropendola_ai/doctype/ai_model_profile/ai_model_profile.py` —
  `AIModelProfile.get_routing_score`.

Numeric conventions: Python floats are modelled as rationals (ℚ); Python
ints as ℤ/ℕ.  `int(x)` (truncation toward zero) is `pyInt`.  Python's
`x or d` on numbers (falsy `0` replaced by the default) is `pyOr`.
-/

/-- Python `int(q)` on a float: truncation toward zero. -/
def pyInt (q : ℚ) : ℤ := if 0 ≤ q then ⌊q⌋ else ⌈q⌉

/-- Python `v or d` on a number: `d` when `v` is falsy (= 0), else `v`. -/
def pyOr (v d : ℚ) : ℚ := if v = 0 then d else v

/-- Substring test on character lists; models `re.search` for the routing
keyword patterns, all of which are literal strings with no regex
metacharacters, so `re.search(pat, s)` is exactly "pat occurs in s". -/
def isSubstr (pat s : List Char) : Bool := decide (pat <:+: s)

/-- Python `s.lower()` for the ASCII strings the router handles. -/
def toLowerStr (s : String) : List Char := s.data.map Char.toLower

/-! ## Quota checking (`ModelRouter.check_quota`)

State of the Redis key `quota:{subscription}:{today}`: `none` when the key
does not exist yet, `some v` when it holds the integer `v` (`-1` is the
unlimited sentinel).  `check_quota` returns the `(success, new key state)`
pair; the message strings are dropped.
-/

/-- The common tail of `check_quota` once `remaining` has been read:
the `remaining == -1` unlimited test, the `remaining < cost_units`
comparison (an int/float comparison, hence over ℚ), and the
`decr(quota_key, int(cost_units))` decrement. -/
def quotaStep (remaining : ℤ) (cost_units : ℚ) : Bool × ℤ :=
  if remaining = -1 then (true, remaining)
  else if (remaining : ℚ) < cost_units then (false, remaining)
  else (true, remaining - pyInt cost_units)

/-- `ModelRouter.check_quota`, sequential semantics: initialize the key
from the subscription's `daily_quota_limit` when absent, then run the
check-and-decrement tail. -/
def check_quota (daily_quota_limit : ℤ) (cost_units : ℚ) (key : Option ℤ) :
    Bool × Option ℤ :=
  match key with
  | none =>
    if daily_quota_limit = -1 then (true, some (-1))
    else
      let r := quotaStep daily_quota_limit cost_units
      (r.1, some r.2)
  | some remaining =>
    let r := quotaStep remaining cost_units
    (r.1, some r.2)

/-- A sequence of `check_quota` calls against the same key, returning the
list of per-call results and the final key state. -/
def check_quota_run (daily_quota_limit : ℤ) :
    List ℚ → Option ℤ → List Bool × Option ℤ
  | [], key => ([], key)
  | c :: cs, key =>
    let r := check_quota daily_quota_limit c key
    let rest := check_quota_run daily_quota_limit cs r.2
    (r.1 :: rest.1, rest.2)

/-! ## Concurrent quota checking

`check_quota` issues two separate Redis commands on the hot path: a `GET`
of the counter and (after a local comparison) a `DECR`.  Two concurrent
callers interleave at the granularity of these commands.  A caller is a
small program: `ready` (about to `GET`), `got r` (holds the value it read,
about to compare locally and `DECR`), `finished ok`.  The local comparison
touches no shared state, so it is bundled with the `DECR` step.
-/

/-- Program counter of one in-flight `check_quota` caller (key already
initialized, finite quota). -/
inductive QuotaPC where
  | ready : QuotaPC
  | got : ℤ → QuotaPC
  | finished : Bool → QuotaPC
deriving DecidableEq, Repr

/-- One atomic step of a `check_quota` caller against the shared counter:
either the `GET`, or the local comparison followed by the `DECR`. -/
def quotaProcStep (cost_units : ℚ) (pc : QuotaPC) (counter : ℤ) : QuotaPC × ℤ :=
  match pc with
  | .ready => (.got counter, counter)
  | .got r =>
    if r = -1 then (.finished true, counter)
    else if (r : ℚ) < cost_units then (.finished false, counter)
    else (.finished true, counter - pyInt cost_units)
  | .finished b => (.finished b, counter)

/-- Shared state: the Redis counter and the two callers' program counters. -/
structure QuotaSys where
  counter : ℤ
  proc1 : QuotaPC
  proc2 : QuotaPC
deriving DecidableEq, Repr

/-- Schedule one step of caller 1 (`true`) or caller 2 (`false`). -/
def quotaSysStep (cost_units : ℚ) (who : Bool) (s : QuotaSys) : QuotaSys :=
  if who then
    let r := quotaProcStep cost_units s.proc1 s.counter
    { s with proc1 := r.1, counter := r.2 }
  else
    let r := quotaProcStep cost_units s.proc2 s.counter
    { s with proc2 := r.1, counter := r.2 }

/-- Run a whole schedule (list of caller choices). -/
def quotaRunSched (cost_units : ℚ) : List Bool → QuotaSys → QuotaSys
  | [], s => s
  | w :: ws, s => quotaRunSched cost_units ws (quotaSysStep cost_units w s)

/-! ## Rate limiting (`ModelRouter.check_rate_limit`)

The Lua script reads the bucket (missing key counts as `limit`), and when
a token is available decrements and returns success; otherwise it fails
and leaves the bucket untouched.
-/

/-- `ModelRouter.check_rate_limit` on bucket state `none` (key absent) or
`some v`. -/
def check_rate_limit (qps_limit : ℤ) (bucket : Option ℤ) : Bool × Option ℤ :=
  if qps_limit = 0 then (true, bucket)
  else
    let current := bucket.getD qps_limit
    if current > 0 then (true, some (current - 1))
    else (false, bucket)

/-! ## Backend profiles and scoring (`AIModelProfile.get_routing_score`) -/

/-- Health state of a backend (`health_status`). -/
inductive Health where
  | up : Health
  | degraded : Health
  | down : Health
deriving DecidableEq, Repr

/-- An `AI Model Profile` document, restricted to the fields the routing
hot path reads.  `call_ok` abstracts the outcome of `requests.post` to
this backend for the request under consideration: `true` iff the call
returns HTTP 200 (a timeout, network error or non-200 status is
`false`). -/
structure ModelProfile where
  model_name : String
  is_active : Bool
  health_status : Health
  capacity_score : ℚ
  cost_per_unit : ℚ
  avg_latency_ms : ℚ
  success_rate : ℚ
  call_ok : Bool
deriving DecidableEq, Repr

/-- `AIModelProfile.get_routing_score`.  `plan_cost_weight = none` models
the Python default argument `plan_cost_weight=None`.  The `or` defaults of
the source (`avg_latency_ms or 100`, `cost_per_unit or 0`,
`success_rate or 100`) are `pyOr`. -/
def get_routing_score (m : ModelProfile) (subscription_priority : ℚ)
    (plan_cost_weight : Option ℚ) : ℚ :=
  if ¬m.is_active ∨ m.health_status = Health.down then 0
  else
    let latency_score := 1 * (1 / (pyOr m.avg_latency_ms 100 + 1))
    let capacity_score := (1 / 2) * (m.capacity_score / 100)
    let cost_score := -(3 / 2) * pyOr m.cost_per_unit 0
    let priority_score := 2 * subscription_priority
    let success_score := (3 / 10) * (pyOr m.success_rate 100 / 100)
    let cost_weight_score :=
      match plan_cost_weight with
      | none => 0
      | some w => 3 * (w / 10)
    let degraded_penalty : ℚ := if m.health_status = Health.degraded then -10 else 0
    latency_score + capacity_score + cost_score + priority_score +
      success_score + cost_weight_score + degraded_penalty

/-- Modelled from the spec: the score formula as the spec/claim states it,
differing from the source only in that the plan-cost-weight term
"defaults from weight 10" (i.e. contributes `3.0 * (10/10)`) when no plan
weight is supplied.  Used to compare the claim's reading against the
source. -/
def spec_routing_score (m : ModelProfile) (subscription_priority : ℚ)
    (plan_cost_weight : Option ℚ) : ℚ :=
  if ¬m.is_active ∨ m.health_status = Health.down then 0
  else
    1 * (1 / (m.avg_latency_ms + 1)) + (1 / 2) * (m.capacity_score / 100) +
      -(3 / 2) * m.cost_per_unit + 2 * subscription_priority +
      (3 / 10) * (m.success_rate / 100) +
      3 * ((plan_cost_weight.getD 10) / 10) +
      (if m.health_status = Health.degraded then -10 else 0)

/-! ## Model selection (`ModelRouter.select_model`)

`select_model` fetches the active, non-Down profiles among the allowed
names (in the order the store returns them — the order of the `env`
list), scores each with `get_routing_score(priority_score)` — note: **no
plan cost weight is passed**, so `plan_cost_weight` is `None` — and takes
the head of a stable descending sort by score, i.e. the leftmost profile
of maximal score.
-/

/-- The `frappe.get_all` filter of `select_model`: allowed name, active,
health not Down. -/
def candidate (allowed : List String) (m : ModelProfile) : Bool :=
  decide (m.model_name ∈ allowed) && m.is_active &&
    decide (¬m.health_status = Health.down)

/-- Leftmost element of maximal `f`-value: the head of a stable sort in
decreasing order of `f` (Python `sort(key=..., reverse=True)` is stable,
so ties keep the original order). -/
def argmax_first (f : ModelProfile → ℚ) : List ModelProfile → Option ModelProfile
  | [] => none
  | m :: ms =>
    match argmax_first f ms with
    | none => some m
    | some b => if f b > f m then some b else some m

/-- `ModelRouter.select_model`.  `env` is the list of all profile
documents in store order. -/
def select_model (env : List ModelProfile) (allowed : List String)
    (priority_score : ℚ) : Option ModelProfile :=
  argmax_first (fun m => get_routing_score m priority_score none)
    (env.filter (candidate allowed))

/-! ## Fallback (`ModelRouter.try_fallback_models`) -/

/-- `frappe.get_doc("AI Model Profile", name)`: first profile with the
given name, `none` when the document does not exist (the source raises
and the `except` clause continues the loop). -/
def lookupModel (env : List ModelProfile) (name : String) : Option ModelProfile :=
  env.find? (fun m => m.model_name == name)

/-- The loop body of `try_fallback_models` over the remaining candidate
names.  Returns `(winner, backend calls made, usage logs emitted)`;
a usage log entry is `(model_name, succeeded?)`. -/
def try_fallback_loop (env : List ModelProfile) :
    List String → Option ModelProfile × List String × List (String × Bool)
  | [] => (none, [], [])
  | n :: ns =>
    match lookupModel env n with
    | none => try_fallback_loop env ns
    | some m =>
      if ¬m.is_active ∨ m.health_status = Health.down then
        try_fallback_loop env ns
      else if m.call_ok then (some m, [n], [(m.model_name, true)])
      else
        let r := try_fallback_loop env ns
        (r.1, n :: r.2.1, r.2.2)

/-- `ModelRouter.try_fallback_models`: iterate the allowed names minus
the failed primary, in plain list order. -/
def try_fallback_models (env : List ModelProfile) (allowed : List String)
    (failed_model : String) : Option ModelProfile × List String × List (String × Bool) :=
  try_fallback_loop env (allowed.filter (fun n => n ≠ failed_model))

/-! ## The routed request (`ModelRouter.route_request`) -/

/-- The subscription data `route_request` consumes (after a successful
`validate_api_key`). -/
structure SubData where
  rate_limit_qps : ℤ
  daily_quota_limit : ℤ
  priority_score : ℚ
  allowed_models : List String
deriving DecidableEq, Repr

/-- Mutable admission-control state: the quota key and the rate bucket. -/
structure RouterState where
  quota : Option ℤ
  bucket : Option ℤ
deriving DecidableEq, Repr

/-- Observable outcome of `route_request`: HTTP-style status, the error
string (empty on success), the served model, the `fallback` flag, every
backend actually called (in order), every usage record emitted
(`(model, succeeded?)`), and the final admission-control state. -/
structure RouteOutcome where
  status : ℕ
  error : String
  model : Option String
  is_fallback : Bool
  backendCalls : List String
  usageLogs : List (String × Bool)
  finalState : RouterState
deriving DecidableEq, Repr

/-- `ModelRouter.route_request`, from step 2 on (the key has already been
validated into `sub`).  Step 2 checks the rate limit (when a positive
limit is configured), step 3 checks the quota, step 4 selects a model,
step 5 calls it, falling back via `try_fallback_models` on failure. -/
def route_request (sub : SubData) (cost_units : ℚ) (env : List ModelProfile)
    (st : RouterState) : RouteOutcome :=
  let rateRes :=
    if sub.rate_limit_qps > 0 then check_rate_limit sub.rate_limit_qps st.bucket
    else (true, st.bucket)
  if rateRes.1 = false then
    ⟨429, "Rate limit exceeded", none, false, [], [], ⟨st.quota, rateRes.2⟩⟩
  else
    let quotaRes := check_quota sub.daily_quota_limit cost_units st.quota
    let st1 : RouterState := ⟨quotaRes.2, rateRes.2⟩
    if quotaRes.1 = false then
      ⟨429, "Quota exceeded", none, false, [], [], st1⟩
    else
      match select_model env sub.allowed_models sub.priority_score with
      | none => ⟨503, "No available models", none, false, [], [], st1⟩
      | some primary =>
        if primary.call_ok then
          ⟨200, "", some primary.model_name, false, [primary.model_name],
            [(primary.model_name, true)], st1⟩
        else
          let fb := try_fallback_models env sub.allowed_models primary.model_name
          match fb.1 with
          | some w =>
            ⟨200, "", some w.model_name, true, primary.model_name :: fb.2.1,
              fb.2.2, st1⟩
          | none =>
            ⟨503, "All models failed", none, false,
              primary.model_name :: fb.2.1,
              fb.2.2 ++ [(primary.model_name, false)], st1⟩

/-! ## Task complexity (`SmartRouter.detect_task_complexity`) -/

/-- `complexity_patterns["simple"]` (defined by the source but never
consulted by `detect_task_complexity`). -/
def simple_keywords : List String :=
  ["what is", "explain briefly", "todo", "list", "simple", "quick"]

/-- `complexity_patterns["reasoning"]`. -/
def reasoning_keywords : List String :=
  ["debug", "test", "unit test", "algorithm", "logic", "calculate"]

/-- `complexity_patterns["complex"]`. -/
def complex_keywords : List String :=
  ["review", "architecture", "design pattern", "refactor", "optimize", "comprehensive"]

/-- `complexity_patterns["multimodal"]`. -/
def multimodal_keywords : List String :=
  ["visualize", "diagram", "chart", "image", "screenshot"]

/-- Does any pattern of the list occur in the (lowercased) prompt? -/
def matchesAny (pats : List String) (promptLower : List Char) : Bool :=
  pats.any (fun pat => isSubstr pat.data promptLower)

/-- `SmartRouter.detect_task_complexity`. -/
def detect_task_complexity (prompt : String) (context_tokens : ℕ) : String :=
  let prompt_lower := toLowerStr prompt
  if matchesAny multimodal_keywords prompt_lower then "multimodal"
  else if matchesAny complex_keywords prompt_lower then "complex"
  else if matchesAny reasoning_keywords prompt_lower then "reasoning"
  else if context_tokens > 10000 then "complex"
  else if context_tokens > 5000 then "reasoning"
  else if prompt.length < 100 then "simple"
  else if prompt.length < 500 then "reasoning"
  else "complex"

/-! ## Session continuity (`SmartRouter.check_context_correlation` and the
continuity slice of `SmartRouter.smart_route`) -/

/-- Python `s.split()`: split on whitespace runs, dropping empty chunks. -/
def pySplitWS (s : List Char) : List (List Char) :=
  (s.splitOnP (fun c => c.isWhitespace)).filter (fun t => t ≠ [])

/-- `prompt.lower().split()` as a token list. -/
def tokensOf (s : String) : List (List Char) := pySplitWS (toLowerStr s)

/-- Per-session Redis state: `session:{id}:last_prompt` and
`session:{id}:model`. -/
structure SessionState where
  last_prompt : Option String
  session_model : Option String
deriving DecidableEq, Repr

/-- `SmartRouter.check_context_correlation`: Jaccard similarity of the
lowercased token sets of the current and previous prompt, updating the
cached prompt.  A missing (or empty, hence falsy) previous prompt counts
as the first prompt of the session.  When either token set is empty the
source returns early without updating the cache. -/
def check_context_correlation (st : SessionState) (current_prompt : String) :
    ℚ × SessionState :=
  match st.last_prompt with
  | none => (0, { st with last_prompt := some current_prompt })
  | some lp =>
    if lp = "" then (0, { st with last_prompt := some current_prompt })
    else
      let current_tokens := tokensOf current_prompt
      let last_tokens := tokensOf lp
      if current_tokens = [] ∨ last_tokens = [] then (0, st)
      else
        let inter := current_tokens.dedup.filter (fun t => t ∈ last_tokens)
        let uni := (current_tokens ++ last_tokens).dedup
        let similarity : ℚ :=
          if uni = [] then 0 else (inter.length : ℚ) / (uni.length : ℚ)
        (similarity, { st with last_prompt := some current_prompt })

/-- The plan's smart-routing configuration fields the continuity slice
reads. -/
structure RoutingConfig where
  enable_session_continuity : Bool
  correlation_threshold : ℚ
deriving DecidableEq, Repr

/-- The session-continuity slice of `SmartRouter.smart_route`: compute the
correlation and the `use_cached_model` flag, then — exactly as the source
does — route through the base router regardless, and finally cache the
base router's chosen model for the session unless `use_cached_model` was
set.  Returns `(outcome, new session state, use_cached_model)`. -/
def smart_route_session (cfg : RoutingConfig) (has_session : Bool)
    (st : SessionState) (current_prompt : String) (sub : SubData)
    (cost_units : ℚ) (env : List ModelProfile) (rst : RouterState) :
    RouteOutcome × SessionState × Bool :=
  let step1 :=
    if has_session ∧ cfg.enable_session_continuity then
      let r := check_context_correlation st current_prompt
      if r.1 > cfg.correlation_threshold then
        match r.2.session_model with
        | some m => if m ≠ "" then (true, r.2) else (false, r.2)
        | none => (false, r.2)
      else (false, r.2)
    else (false, st)
  let use_cached := step1.1
  let st1 := step1.2
  let result := route_request sub cost_units env rst
  let st2 :=
    if result.status = 200 ∧ has_session ∧ cfg.enable_session_continuity ∧
        ¬use_cached then
      { st1 with session_model := result.model }
    else st1
  (result, st2, use_cached)

/-! ## Smart-mode weights (`SmartRouter._get_efficient_weights`,
`SmartRouter.apply_mode_weights_to_plan` and the in-memory override loop
of `smart_route`) -/

/-- `SmartRouter._get_efficient_weights`. -/
def get_efficient_weights (complexity : String) : List (String × ℚ) :=
  if complexity = "reasoning" then
    [("DeepSeek", 60), ("Grok", 35), ("Gemini", 3), ("Claude", 2), ("GPT-4", 0)]
  else
    [("DeepSeek", 90), ("Grok", 8), ("Gemini", 2), ("Claude", 0), ("GPT-4", 0)]

/-- The in-memory override loop of `smart_route`:
`model_access.cost_weight = mode_weights[model_access.model_name]` for
every access row whose model name appears in the mode weight map — an
assignment, replacing the plan's weight. -/
def apply_mode_weights (model_access : List (String × ℚ))
    (mode_weights : List (String × ℚ)) : List (String × ℚ) :=
  model_access.map (fun a =>
    match mode_weights.lookup a.1 with
    | some w => (a.1, w)
    | none => a)

/-! ## Concrete instances used in counterexamples and witnesses -/

/-- An active, healthy profile with latency 99 ms, capacity 50, cost 1,
success rate 100. -/
def c4cex : ModelProfile := ⟨"M", true, Health.up, 50, 1, 99, 100, true⟩

/-- The cheap backend of the mode-efficient scenario (cost 0.001,
efficient-mode weight 90). -/
def modelA : ModelProfile := ⟨"DeepSeek", true, Health.up, 50, 1/1000, 100, 100, true⟩

/-- The expensive backend of the mode-efficient scenario (cost 0.03,
efficient-mode weight 8). -/
def modelB : ModelProfile := ⟨"Grok", true, Health.up, 50, 3/100, 100, 100, true⟩

/-- Backend "A" of the session-continuity run (cheap: scoring picks it). -/
def modelA2 : ModelProfile := ⟨"A", true, Health.up, 50, 1/1000, 100, 100, true⟩

/-- Backend "B" of the session-continuity run (expensive). -/
def modelB2 : ModelProfile := ⟨"B", true, Health.up, 50, 3/100, 100, 100, true⟩

/-- Session state with cached backend "B" and cached prompt "fix the bug". -/
def c2session : SessionState := ⟨some "fix the bug", some "B"⟩

/-- Continuity enabled, threshold 0.7 (the plan default). -/
def sessionCfg : RoutingConfig := ⟨true, 7/10⟩

/-- Primary of the fallback witness: selected (cost 0), but its call
fails. -/
def modelP : ModelProfile := ⟨"P", true, Health.up, 50, 0, 100, 100, false⟩

/-- First fallback candidate: health Down, must be skipped without a
call. -/
def modelF1 : ModelProfile := ⟨"F1", true, Health.down, 50, 0, 100, 100, true⟩

/-- Second fallback candidate: healthy, and its call succeeds. -/
def modelF2 : ModelProfile := ⟨"F2", true, Health.up, 50, 100, 100, 100, true⟩

/-- The C7 counterexample prompt: contains the simple-class keyword
"what is", no keyword of any other class, but is 108 characters long. -/
def c7prompt : String := "what is " ++ String.mk (List.replicate 100 'a')

/-! ## Helper lemmas -/

theorem pyOr_self (v d : ℚ) (h : v ≠ 0) : pyOr v d = v := by
  simp [pyOr, h]

theorem pyOr_zero_default (v : ℚ) : pyOr v 0 = v := by
  unfold pyOr
  split <;> simp_all

theorem pyInt_of_nonneg (q : ℚ) (h : 0 ≤ q) : pyInt q = ⌊q⌋ := by
  simp [pyInt, h]

theorem pyInt_one : pyInt 1 = 1 := by
  rw [pyInt_of_nonneg 1 (by norm_num), Int.floor_one]

theorem pyInt_neg_one : pyInt (-1) = -1 := by
  have hc : ((-1 : ℤ) : ℚ) = -1 := by norm_num
  rw [pyInt, if_neg (by norm_num), ← hc, Int.ceil_intCast]

theorem pyInt_zero_of_lt_one (q : ℚ) (h0 : 0 ≤ q) (h1 : q < 1) : pyInt q = 0 := by
  rw [pyInt_of_nonneg q h0, Int.floor_eq_zero_iff]
  exact ⟨h0, h1⟩

theorem pyInt_nonneg (q : ℚ) (h : 0 ≤ q) : 0 ≤ pyInt q := by
  rw [pyInt_of_nonneg q h]
  exact Int.floor_nonneg.mpr h

theorem check_quota_some_le (limit v : ℤ) (cost : ℚ) (hc : 0 ≤ cost) :
    ∃ w, (check_quota limit cost (some v)).2 = some w ∧ w ≤ v := by
  unfold check_quota quotaStep
  by_cases h1 : v = -1
  · exact ⟨v, by simp [h1], le_refl v⟩
  · by_cases h2 : (v : ℚ) < cost
    · exact ⟨v, by simp [h1, h2], le_refl v⟩
    · refine ⟨v - pyInt cost, by simp [h1, h2], ?_⟩
      have := pyInt_nonneg cost hc
      omega

theorem check_quota_run_some_le (limit : ℤ) (costs : List ℚ)
    (hc : ∀ c ∈ costs, 0 ≤ c) :
    ∀ v : ℤ, ∃ w, (check_quota_run limit costs (some v)).2 = some w ∧ w ≤ v := by
  induction costs with
  | nil => exact fun v => ⟨v, rfl, le_refl v⟩
  | cons c cs ih =>
    intro v
    obtain ⟨w1, hw1, hle1⟩ := check_quota_some_le limit v c (hc c (by simp))
    obtain ⟨w2, hw2, hle2⟩ := ih (fun x hx => hc x (by simp [hx])) w1
    refine ⟨w2, ?_, le_trans hle2 hle1⟩
    simp only [check_quota_run]
    rw [hw1]
    exact hw2

theorem check_quota_run_unlimited (limit : ℤ) (costs : List ℚ) :
    check_quota_run limit costs (some (-1)) =
      (List.replicate costs.length true, some (-1)) := by
  induction costs with
  | nil => rfl
  | cons c cs ih =>
    simp [check_quota_run, check_quota, quotaStep, ih, List.replicate_succ]

/-- Counterexample to claim C9 as stated: `check_quota` does not guard
against a negative `cost_units`.  With daily limit 10 and a full counter,
a single call with `cost_units = -1` is admitted (10 < -1 is false) and
`decr` by `int(-1) = -1` pushes the counter to 11, which exceeds the
limit — so without a sign restriction the counter can exceed the limit
and be incremented. -/
theorem C9_counterexample :
    check_quota 10 (-1) (some 10) = (true, some 11) ∧ ¬(11 : ℤ) ≤ 10 := by
  constructor
  · norm_num [check_quota, quotaStep, pyInt_neg_one]
  · decide

/-- Claim C9 (amended): across every sequence of `check_quota` calls with
non-negative `cost_units`, the remaining-quota counter never exceeds the
subscription's daily limit (it is initialized from the limit on first
touch and never incremented thereafter), and for an unlimited
subscription (limit -1) every call is allowed and the counter is never
decremented (it is set to the sentinel -1 and stays there). -/
theorem C9_amended (limit : ℤ) (costs : List ℚ) (hc : ∀ c ∈ costs, 0 ≤ c) :
    (∀ v : ℤ, (check_quota_run limit costs none).2 = some v → v ≤ limit) ∧
    (limit = -1 →
      (check_quota_run limit costs none).1 = List.replicate costs.length true ∧
      ((check_quota_run limit costs none).2 = none ∨
        (check_quota_run limit costs none).2 = some (-1))) := by
  constructor
  · cases costs with
    | nil =>
      intro v hv
      simp [check_quota_run] at hv
    | cons c cs =>
      intro v hv
      by_cases hl : limit = -1
      · have h1 : (check_quota limit c none).2 = some (-1) := by
          simp [check_quota, hl]
        have h2 := check_quota_run_unlimited limit cs
        simp only [check_quota_run] at hv
        rw [h1, h2] at hv
        simp at hv
        omega
      · have h1 : ∃ w, (check_quota limit c none).2 = some w ∧ w ≤ limit := by
          unfold check_quota quotaStep
          by_cases h2 : (limit : ℚ) < c
          · exact ⟨limit, by simp [hl, h2], le_refl _⟩
          · refine ⟨limit - pyInt c, by simp [hl, h2], ?_⟩
            have := pyInt_nonneg c (hc c (by simp))
            omega
      
        obtain ⟨w1, hw1, hle1⟩ := h1
        obtain ⟨w2, hw2, hle2⟩ := check_quota_run_some_le limit cs
          (fun x hx => hc x (by simp [hx])) w1
        simp only [check_quota_run] at hv
        rw [hw1, hw2] at hv
        simp at hv
        omega
  · intro hl
    subst hl
    cases costs with
    | nil => exact ⟨rfl, Or.inl rfl⟩
    | cons c cs =>
      have h1 : check_quota (-1) c none = (true, some (-1)) := by
        simp [check_quota]
      have h2 := check_quota_run_unlimited (-1) cs
      refine ⟨?_, Or.inr ?_⟩
      · simp [check_quota_run, h1, h2, List.replicate_succ]
      · simp [check_quota_run, h1, h2]

/-- Witness for `C9_amended` at limit 10 and the call sequence
`[1, 1/2]`. -/
theorem C9_amended_witness :
    (∀ v : ℤ, (check_quota_run 10 [1, 1/2] none).2 = some v → v ≤ 10) ∧
    ((10 : ℤ) = -1 →
      (check_quota_run 10 [1, 1/2] none).1 =
        List.replicate ([1, (1/2 : ℚ)]).length true ∧
      ((check_quota_run 10 [1, 1/2] none).2 = none ∨
        (check_quota_run 10 [1, 1/2] none).2 = some (-1))) :=
  C9_amended 10 [1, 1/2] (by intro c hcm; fin_cases hcm <;> norm_num)

/-- Claim C10: a `check_quota` call against a finite remaining quota `R`
with `R ≥ cost_units` is admitted and the counter is decremented by
`int(cost_units)` — the float truncated toward zero — not by
`cost_units`; consequently with `0 < cost_units < 1` an admitted call
leaves the counter unchanged, so such calls are admitted unboundedly
often without exhausting the quota. -/
theorem C10_truncated_decrement (limit R : ℤ) (cost : ℚ)
    (hfin : R ≠ -1) (hge : cost ≤ (R : ℚ)) :
    check_quota limit cost (some R) = (true, some (R - pyInt cost)) ∧
    (0 < cost → cost < 1 →
      ∀ n : ℕ, check_quota_run limit (List.replicate n cost) (some R) =
        (List.replicate n true, some R)) := by
  have h1 : check_quota limit cost (some R) = (true, some (R - pyInt cost)) := by
    simp [check_quota, quotaStep, hfin, not_lt.mpr hge]
  refine ⟨h1, fun h0 hlt1 n => ?_⟩
  have hz : pyInt cost = 0 := pyInt_zero_of_lt_one cost (le_of_lt h0) hlt1
  have hstep : check_quota limit cost (some R) = (true, some R) := by
    rw [h1, hz, sub_zero]
  induction n with
  | zero => simp [check_quota_run]
  | succ k ih =>
    simp [List.replicate_succ, check_quota_run, hstep, ih]

/-- Witness for `C10_truncated_decrement` at limit 100, `R = 5`,
`cost_units = 1/2`. -/
theorem C10_truncated_decrement_witness :
    check_quota 100 (1/2) (some 5) = (true, some (5 - pyInt (1/2))) ∧
    (0 < (1/2 : ℚ) → (1/2 : ℚ) < 1 →
      ∀ n : ℕ, check_quota_run 100 (List.replicate n (1/2)) (some 5) =
        (List.replicate n true, some 5)) :=
  C10_truncated_decrement 100 5 (1/2) (by decide) (by norm_num)

/-- Claim C1: the quota check-and-decrement of `ModelRouter.check_quota`
is not atomic — it is a Redis `GET`, a local comparison, and a separate
`DECR`.  With one unit of quota remaining, two concurrent unit-cost
callers that both `GET` before either `DECR`s both succeed, and the
counter is driven to -1: the claimed "exactly R succeed" race-freedom
fails (here R = 1 but both succeed), contradicting the source's own
docstring ("Uses Redis for atomic operations" / "Consume quota
atomically"). -/
theorem C1_race_both_succeed :
    quotaRunSched 1 [true, false, true, false]
        { counter := 1, proc1 := QuotaPC.ready, proc2 := QuotaPC.ready } =
      { counter := -1, proc1 := QuotaPC.finished true,
        proc2 := QuotaPC.finished true } := by
  have h1 : ¬((1 : ℤ) = -1) := by decide
  have h2 : ¬(((1 : ℤ) : ℚ) < 1) := by norm_num
  norm_num [quotaRunSched, quotaSysStep, quotaProcStep, h1, h2, pyInt_one]

/-- Counterexample to claim C3 as stated: `route_request` performs the
rate check (step 2) before the quota check (step 3).  First run (qps
limit 1, full bucket, quota 0): the request is rejected for quota yet the
rate bucket has gone from full (no key, worth 1 token) to 0 — the
quota-rejected request did consume a rate token.  Second run (qps limit
1, empty bucket, quota key absent): the request is rejected as
rate-limited and the quota key is never touched, so quota is not checked
first. -/
theorem C3_counterexample :
    ((route_request ⟨1, 0, 0, []⟩ 1 [] ⟨some 0, none⟩).status = 429 ∧
     (route_request ⟨1, 0, 0, []⟩ 1 [] ⟨some 0, none⟩).error = "Quota exceeded" ∧
     (route_request ⟨1, 0, 0, []⟩ 1 [] ⟨some 0, none⟩).finalState.bucket = some 0) ∧
    ((route_request ⟨1, 0, 0, []⟩ 1 [] ⟨none, some 0⟩).status = 429 ∧
     (route_request ⟨1, 0, 0, []⟩ 1 [] ⟨none, some 0⟩).error = "Rate limit exceeded" ∧
     (route_request ⟨1, 0, 0, []⟩ 1 [] ⟨none, some 0⟩).finalState.quota = none) := by
  norm_num [route_request, check_rate_limit, check_quota, quotaStep]

/-- Claim C3 (amended): the rate check runs before the quota check; a
failure of either terminates the request with status 429 before any
backend call and before any usage record; a request rejected for rate has
not touched the quota key, while a request rejected for quota keeps
whatever the rate check did to the bucket (so, with a positive configured
limit, it has consumed a rate-bucket token). -/
theorem C3_amended (sub : SubData) (cost : ℚ) (env : List ModelProfile)
    (st : RouterState) :
    ((if sub.rate_limit_qps > 0 then check_rate_limit sub.rate_limit_qps st.bucket
      else (true, st.bucket)).1 = false →
      route_request sub cost env st =
        ⟨429, "Rate limit exceeded", none, false, [], [],
          ⟨st.quota, (if sub.rate_limit_qps > 0 then
              check_rate_limit sub.rate_limit_qps st.bucket
            else (true, st.bucket)).2⟩⟩) ∧
    ((if sub.rate_limit_qps > 0 then check_rate_limit sub.rate_limit_qps st.bucket
      else (true, st.bucket)).1 = true →
      (check_quota sub.daily_quota_limit cost st.quota).1 = false →
      route_request sub cost env st =
        ⟨429, "Quota exceeded", none, false, [], [],
          ⟨(check_quota sub.daily_quota_limit cost st.quota).2,
           (if sub.rate_limit_qps > 0 then
              check_rate_limit sub.rate_limit_qps st.bucket
            else (true, st.bucket)).2⟩⟩) := by
  constructor
  · intro h
    simp only [route_request]
    rw [if_pos h]
  · intro h1 h2
    simp only [route_request, h1, h2]
    simp

/-- Witness for `C3_amended`: qps limit 1, full bucket, quota counter 0 —
the quota branch fires after the rate token was consumed. -/
theorem C3_amended_witness :
    route_request ⟨1, 0, 0, []⟩ 1 [] ⟨some 0, none⟩ =
      ⟨429, "Quota exceeded", none, false, [], [],
        ⟨(check_quota 0 1 (some 0)).2,
         (if (1 : ℤ) > 0 then check_rate_limit 1 none
          else (true, none)).2⟩⟩ :=
  (C3_amended ⟨1, 0, 0, []⟩ 1 [] ⟨some 0, none⟩).2
    (by norm_num [check_rate_limit])
    (by norm_num [check_quota, quotaStep])

theorem get_routing_score_active (m : ModelProfile) (prio : ℚ) (pw : Option ℚ)
    (h : ¬(¬m.is_active ∨ m.health_status = Health.down)) :
    get_routing_score m prio pw =
      1 * (1 / (pyOr m.avg_latency_ms 100 + 1)) +
        (1 / 2) * (m.capacity_score / 100) +
        -(3 / 2) * pyOr m.cost_per_unit 0 + 2 * prio +
        (3 / 10) * (pyOr m.success_rate 100 / 100) +
        (match pw with
          | none => 0
          | some w => 3 * (w / 10)) +
        (if m.health_status = Health.degraded then -10 else 0) := by
  unfold get_routing_score
  rw [if_neg h]

/-- Counterexample to claim C4 as stated: when no plan cost weight is
supplied, `get_routing_score` contributes 0 for the plan-cost-weight
term, not the claimed default of `3.0 * (10/10)`.  At an active, Up
profile with latency 99 ms, capacity 50, cost 1, success 100 and priority
0 the source computes -47/50 while the claim's formula gives
-47/50 + 3. -/
theorem C4_counterexample :
    get_routing_score c4cex 0 none ≠ spec_routing_score c4cex 0 none := by
  have h1 : ¬(Health.up = Health.down) := by decide
  have h2 : ¬(Health.up = Health.degraded) := by decide
  norm_num [get_routing_score, spec_routing_score, c4cex, pyOr, h1, h2]

/-- Claim C4 (amended): for a backend whose latency, capacity, cost and
success-rate fields are set to truthy (non-zero) values — a zero latency
or success rate falls back to 100 through Python `or` — the score is 0
when the backend is inactive or Down, and otherwise equals exactly
`1.0*(1/(lat+1)) + 0.5*(cap/100) - 1.5*cost + 2.0*priority +
0.3*(success/100) + 3.0*(planCostWeight/10) + (-10 if Degraded)`, where
the plan-cost-weight term is 0 (not a default of weight 10) when no plan
weight is supplied. -/
theorem C4_amended (m : ModelProfile) (prio : ℚ) (pw : Option ℚ)
    (hlat : m.avg_latency_ms ≠ 0) (hsucc : m.success_rate ≠ 0) :
    (¬m.is_active ∨ m.health_status = Health.down →
      get_routing_score m prio pw = 0) ∧
    (m.is_active → ¬m.health_status = Health.down →
      get_routing_score m prio pw =
        1 * (1 / (m.avg_latency_ms + 1)) + (1 / 2) * (m.capacity_score / 100) +
          -(3 / 2) * m.cost_per_unit + 2 * prio +
          (3 / 10) * (m.success_rate / 100) +
          (match pw with
            | none => 0
            | some w => 3 * (w / 10)) +
          (if m.health_status = Health.degraded then -10 else 0)) := by
  constructor
  · intro h
    unfold get_routing_score
    rw [if_pos h]
  · intro ha hd
    rw [get_routing_score_active m prio pw (by simp [ha, hd])]
    rw [pyOr_self _ _ hlat, pyOr_self _ _ hsucc, pyOr_zero_default]

/-- Witness for `C4_amended` at the concrete profile `c4cex` with a plan
cost weight of 20. -/
theorem C4_amended_witness :
    get_routing_score c4cex 0 (some 20) =
      1 * (1 / (c4cex.avg_latency_ms + 1)) +
        (1 / 2) * (c4cex.capacity_score / 100) +
        -(3 / 2) * c4cex.cost_per_unit + 2 * 0 +
        (3 / 10) * (c4cex.success_rate / 100) +
        (match (some (20 : ℚ)) with
          | none => 0
          | some w => 3 * (w / 10)) +
        (if c4cex.health_status = Health.degraded then -10 else 0) :=
  (C4_amended c4cex 0 (some 20) (by norm_num [c4cex])
    (by norm_num [c4cex])).2 rfl (by decide)

/-- Claim C5: for an active, non-Down backend with all scoring fields
set (truthy, i.e. non-zero — latency and success rate at 0 fall back to
defaults through Python `or`), holding all else fixed: strictly
increasing capacity or success rate strictly increases the routing
score, strictly decreasing latency (to a still-set, positive value) or
cost strictly increases it, and setting health to Down forces the score
to exactly 0. -/
theorem C5_monotonic (m : ModelProfile) (prio : ℚ) (pw : Option ℚ)
    (hact : m.is_active = true) (hdown : ¬m.health_status = Health.down)
    (hlat : 0 < m.avg_latency_ms) (hsucc : 0 < m.success_rate) :
    (∀ c, m.capacity_score < c →
      get_routing_score { m with capacity_score := c } prio pw >
        get_routing_score m prio pw) ∧
    (∀ s, m.success_rate < s →
      get_routing_score { m with success_rate := s } prio pw >
        get_routing_score m prio pw) ∧
    (∀ l, 0 < l → l < m.avg_latency_ms →
      get_routing_score { m with avg_latency_ms := l } prio pw >
        get_routing_score m prio pw) ∧
    (∀ c, c < m.cost_per_unit →
      get_routing_score { m with cost_per_unit := c } prio pw >
        get_routing_score m prio pw) ∧
    get_routing_score { m with health_status := Health.down } prio pw = 0 := by
  have h0 : ¬(¬m.is_active ∨ m.health_status = Health.down) := by
    simp [hact, hdown]
  refine ⟨?_, ?_, ?_, ?_, ?_⟩
  · intro c hc
    rw [get_routing_score_active _ prio pw (by simp [hact, hdown]),
      get_routing_score_active m prio pw h0]
    simp only
    linarith
  · intro s hs
    rw [get_routing_score_active _ prio pw (by simp [hact, hdown]),
      get_routing_score_active m prio pw h0]
    simp only
    rw [pyOr_self _ _ (ne_of_gt hsucc), pyOr_self _ _ (ne_of_gt (lt_trans hsucc hs))]
    linarith
  · intro l hl0 hl
    rw [get_routing_score_active _ prio pw (by simp [hact, hdown]),
      get_routing_score_active m prio pw h0]
    simp only
    rw [pyOr_self _ _ (ne_of_gt hlat), pyOr_self _ _ (ne_of_gt hl0)]
    have key : 1 / (m.avg_latency_ms + 1) < 1 / (l + 1) :=
      one_div_lt_one_div_of_lt (by linarith) (by linarith)
    linarith
  · intro c hc
    rw [get_routing_score_active _ prio pw (by simp [hact, hdown]),
      get_routing_score_active m prio pw h0]
    simp only [pyOr_zero_default]
    linarith
  · simp [get_routing_score]

/-- Witness for `C5_monotonic`: raising `c4cex`'s capacity score from 50
to 60 strictly raises its routing score. -/
theorem C5_monotonic_witness :
    get_routing_score { c4cex with capacity_score := 60 } 0 none >
      get_routing_score c4cex 0 none :=
  (C5_monotonic c4cex 0 none rfl (by decide) (by norm_num [c4cex])
    (by norm_num [c4cex])).1 60 (by norm_num [c4cex])

/-- Counterexample to claim C6 as stated: the mode weight map is applied
to the plan's in-memory cost weights by assignment, not multiplication
(plan weight 10 with efficient-simple weight 90 becomes 90, not 900);
and it is not consumed before scoring at all: `select_model` scores with
no plan cost weight (`None`), and supplying the claimed multiplied
weight would change the score, so the code's score is observably not the
claim's. -/
theorem C6_counterexample :
    apply_mode_weights [("DeepSeek", 10), ("Grok", 10)]
        (get_efficient_weights "simple") =
      [("DeepSeek", 90), ("Grok", 8)] ∧
    apply_mode_weights [("DeepSeek", 10), ("Grok", 10)]
        (get_efficient_weights "simple") ≠
      [("DeepSeek", 10 * 90), ("Grok", 10 * 8)] ∧
    get_routing_score modelA 0 none ≠ get_routing_score modelA 0 (some (10 * 90)) := by
  have h2 : ¬(Health.up = Health.down) := by decide
  have h3 : ¬(Health.up = Health.degraded) := by decide
  refine ⟨by decide,
    by norm_num [apply_mode_weights, get_efficient_weights, List.lookup], ?_⟩
  norm_num [get_routing_score, modelA, pyOr, h2, h3]

/-- Claim C6 (amended): the mode's per-backend weight map replaces the
in-memory plan cost weights by assignment (not multiplication), and the
base selection scores with no plan cost weight at all, so the override
does not reach that selection; nevertheless, in the efficient/simple
scenario with backends A (cost 0.001) and B (cost 0.03) otherwise
identical, A's score is strictly higher than B's — because of the cost
term — and A is selected, for every subscription priority. -/
theorem C6_amended (prio : ℚ) :
    get_routing_score modelA prio none > get_routing_score modelB prio none ∧
    select_model [modelA, modelB] ["DeepSeek", "Grok"] prio = some modelA := by
  have h2 : ¬(Health.up = Health.down) := by decide
  have h3 : ¬(Health.up = Health.degraded) := by decide
  have hgt : get_routing_score modelA prio none > get_routing_score modelB prio none := by
    norm_num [get_routing_score, modelA, modelB, pyOr, h2, h3]
  refine ⟨hgt, ?_⟩
  have hf : List.filter (candidate ["DeepSeek", "Grok"]) [modelA, modelB] =
      [modelA, modelB] := by
    simp [candidate, modelA, modelB]
  unfold select_model
  rw [hf]
  simp only [argmax_first]
  rw [if_neg (not_lt.mpr (le_of_lt hgt))]

/-- Counterexample to claim C7 as stated: `detect_task_complexity` never
consults the simple-keyword list.  `c7prompt` contains the simple-class
keyword "what is" and no keyword of any other class, so under the
claimed priority order (multimodal > complex > reasoning > simple,
first match returned) it would classify as "simple"; the source, finding
no multimodal/complex/reasoning keyword, falls through to the length
thresholds and returns "reasoning" for this 108-character prompt. -/
theorem C7_counterexample :
    matchesAny simple_keywords (toLowerStr c7prompt) = true ∧
    matchesAny multimodal_keywords (toLowerStr c7prompt) = false ∧
    matchesAny complex_keywords (toLowerStr c7prompt) = false ∧
    matchesAny reasoning_keywords (toLowerStr c7prompt) = false ∧
    detect_task_complexity c7prompt 0 = "reasoning" ∧
    "reasoning" ≠ "simple" := by
  set_option maxRecDepth 100000 in decide

/-- Claim C7 (amended): the keyword lists are checked in priority order
multimodal > complex > reasoning (case-insensitive substring match,
first match returned); the simple-keyword list is never consulted; when
no keyword of those three classes matches, token count > 10000 gives
"complex" and > 5000 gives "reasoning", and otherwise prompt length
< 100 gives "simple", < 500 "reasoning", else "complex" — so a prompt
matching only a simple-class keyword is classified by the token/length
fallbacks, not by its keyword. -/
theorem C7_amended (prompt : String) (context_tokens : ℕ) :
    (matchesAny multimodal_keywords (toLowerStr prompt) = true →
      detect_task_complexity prompt context_tokens = "multimodal") ∧
    (matchesAny multimodal_keywords (toLowerStr prompt) = false →
      matchesAny complex_keywords (toLowerStr prompt) = true →
      detect_task_complexity prompt context_tokens = "complex") ∧
    (matchesAny multimodal_keywords (toLowerStr prompt) = false →
      matchesAny complex_keywords (toLowerStr prompt) = false →
      matchesAny reasoning_keywords (toLowerStr prompt) = true →
      detect_task_complexity prompt context_tokens = "reasoning") ∧
    (matchesAny multimodal_keywords (toLowerStr prompt) = false →
      matchesAny complex_keywords (toLowerStr prompt) = false →
      matchesAny reasoning_keywords (toLowerStr prompt) = false →
      detect_task_complexity prompt context_tokens =
        if context_tokens > 10000 then "complex"
        else if context_tokens > 5000 then "reasoning"
        else if prompt.length < 100 then "simple"
        else if prompt.length < 500 then "reasoning"
        else "complex") := by
  refine ⟨?_, ?_, ?_, ?_⟩
  · intro h1
    simp [detect_task_complexity, h1]
  · intro h1 h2
    simp [detect_task_complexity, h1, h2]
  · intro h1 h2 h3
    simp [detect_task_complexity, h1, h2, h3]
  · intro h1 h2 h3
    simp [detect_task_complexity, h1, h2, h3]

/-- Witness for `C7_amended`: the fallback clause applied to `c7prompt`
with a zero token count. -/
theorem C7_amended_witness :
    detect_task_complexity c7prompt 0 =
      (if (0 : ℕ) > 10000 then "complex"
       else if (0 : ℕ) > 5000 then "reasoning"
       else if c7prompt.length < 100 then "simple"
       else if c7prompt.length < 500 then "reasoning"
       else "complex") :=
  (C7_amended c7prompt 0).2.2.2
    (by set_option maxRecDepth 100000 in decide)
    (by set_option maxRecDepth 100000 in decide)
    (by set_option maxRecDepth 100000 in decide)

theorem jaccard_self (l : List (List Char)) (h : l ≠ []) :
    ((l.dedup.filter (fun t => t ∈ l)).length : ℚ) /
      (((l ++ l).dedup).length : ℚ) = 1 := by
  have h1 : l.dedup.filter (fun t => t ∈ l) = l.dedup :=
    List.filter_eq_self.mpr (fun a ha => decide_eq_true (List.mem_dedup.mp ha))
  have h2 : ((l ++ l).dedup).length = l.dedup.length := by
    rw [← List.card_toFinset, ← List.card_toFinset, List.toFinset_append,
      Finset.union_self]
  have h3 : l.dedup.length ≠ 0 := by
    simp [List.length_eq_zero, List.dedup_eq_nil, h]
  rw [h1, h2, div_self (by exact_mod_cast h3)]

theorem check_context_correlation_self (sm : Option String) (p : String)
    (hne : ¬p = "") (hts : tokensOf p ≠ []) :
    check_context_correlation ⟨some p, sm⟩ p = (1, ⟨some p, sm⟩) := by
  simp only [check_context_correlation]
  rw [if_neg hne, if_neg (by simp [hts] : ¬(tokensOf p = [] ∨ tokensOf p = []))]
  have hu : (tokensOf p ++ tokensOf p).dedup ≠ [] := by
    simp [List.dedup_eq_nil, hts]
  rw [if_neg hu]
  simp only [Prod.mk.injEq]
  exact ⟨jaccard_self _ hts, trivial⟩

/-- Claim C2 is a code bug in the source: `smart_route` computes
`use_cached_model` and even logs "Using cached model", but never routes
to the cached backend — it always calls the base router, and the flag
only suppresses re-caching.  Concrete run: session continuity enabled,
threshold 0.7, session's cached backend "B", identical consecutive
prompts (token-set Jaccard similarity 1 > 0.7), scoring picks "A".  The
flag is set, yet the served model is "A", not the cached "B" (which
remains cached). -/
theorem C2_cached_model_not_served :
    (smart_route_session sessionCfg true c2session "fix the bug"
        ⟨0, -1, 0, ["A", "B"]⟩ 1 [modelA2, modelB2] ⟨none, none⟩).2.2 = true ∧
    (smart_route_session sessionCfg true c2session "fix the bug"
        ⟨0, -1, 0, ["A", "B"]⟩ 1 [modelA2, modelB2] ⟨none, none⟩).1.model =
      some "A" ∧
    (smart_route_session sessionCfg true c2session "fix the bug"
        ⟨0, -1, 0, ["A", "B"]⟩ 1 [modelA2, modelB2] ⟨none, none⟩).2.1.session_model =
      some "B" ∧
    (some "A" : Option String) ≠ some "B" := by
  have h2 : ¬(Health.up = Health.down) := by decide
  have h3 : ¬(Health.up = Health.degraded) := by decide
  have hgt2 : ¬(get_routing_score modelB2 0 none > get_routing_score modelA2 0 none) := by
    norm_num [get_routing_score, modelA2, modelB2, pyOr, h2, h3]
  have hf : List.filter (candidate ["A", "B"]) [modelA2, modelB2] =
      [modelA2, modelB2] := by
    simp [candidate, modelA2, modelB2]
  have hsel : select_model [modelA2, modelB2] ["A", "B"] 0 = some modelA2 := by
    unfold select_model
    rw [hf]
    simp only [argmax_first]
    rw [if_neg hgt2]
  have hco : modelA2.call_ok = true := rfl
  have hmn : modelA2.model_name = "A" := rfl
  have hroute : route_request ⟨0, -1, 0, ["A", "B"]⟩ 1 [modelA2, modelB2]
      ⟨none, none⟩ =
      ⟨200, "", some "A", false, ["A"], [("A", true)], ⟨some (-1), none⟩⟩ := by
    simp [route_request, check_quota, hsel, hco, hmn]
  have hsim : check_context_correlation c2session "fix the bug" =
      (1, ⟨some "fix the bug", some "B"⟩) :=
    check_context_correlation_self (some "B") "fix the bug" (by decide) (by decide)
  have hB : ¬(("B" : String) = "") := by decide
  refine ⟨?_, ?_, ?_, by decide⟩ <;>
    norm_num [smart_route_session, sessionCfg, hsim, hroute, hB]

theorem try_fallback_loop_spec (env : List ModelProfile) :
    ∀ names : List String,
      (try_fallback_loop env names).2.1.Sublist names ∧
      (try_fallback_loop env names).1 =
        ((names.filterMap (lookupModel env)).filter
          (fun m => m.is_active && decide (¬m.health_status = Health.down))).find?
          (fun m => m.call_ok) ∧
      (∀ w, (try_fallback_loop env names).1 = some w →
        (try_fallback_loop env names).2.2 = [(w.model_name, true)]) ∧
      ((try_fallback_loop env names).1 = none →
        (try_fallback_loop env names).2.2 = []) := by
  intro names
  induction names with
  | nil =>
    refine ⟨List.Sublist.refl _, rfl, ?_, fun _ => rfl⟩
    intro w hw
    simp [try_fallback_loop] at hw
  | cons n ns ih =>
    obtain ⟨ih1, ih2, ih3, ih4⟩ := ih
    cases hl : lookupModel env n with
    | none =>
      have he : try_fallback_loop env (n :: ns) = try_fallback_loop env ns := by
        simp [try_fallback_loop, hl]
      have hfm : (n :: ns).filterMap (lookupModel env) =
          ns.filterMap (lookupModel env) := by
        simp [List.filterMap_cons, hl]
      rw [he, hfm]
      exact ⟨ih1.cons n, ih2, ih3, ih4⟩
    | some m =>
      by_cases hcond : ¬m.is_active ∨ m.health_status = Health.down
      · have he : try_fallback_loop env (n :: ns) = try_fallback_loop env ns := by
          simp only [try_fallback_loop, hl]
          rw [if_pos hcond]
        have hfm : ((n :: ns).filterMap (lookupModel env)).filter
              (fun m => m.is_active && decide (¬m.health_status = Health.down)) =
            (ns.filterMap (lookupModel env)).filter
              (fun m => m.is_active && decide (¬m.health_status = Health.down)) := by
          rcases hcond with h | h
          · have hfalse : m.is_active = false := by
              revert h
              cases m.is_active <;> simp
            simp [List.filterMap_cons, hl, List.filter_cons, hfalse]
          · simp [List.filterMap_cons, hl, List.filter_cons, h]
        rw [he, hfm]
        exact ⟨ih1.cons n, ih2, ih3, ih4⟩
      · have hno := not_or.mp hcond
        have hfm : ((n :: ns).filterMap (lookupModel env)).filter
              (fun m => m.is_active && decide (¬m.health_status = Health.down)) =
            m :: (ns.filterMap (lookupModel env)).filter
              (fun m => m.is_active && decide (¬m.health_status = Health.down)) := by
          simp [List.filterMap_cons, hl, List.filter_cons, not_not.mp hno.1, hno.2]
        by_cases hok : m.call_ok = true
        · have he : try_fallback_loop env (n :: ns) =
              (some m, [n], [(m.model_name, true)]) := by
            simp only [try_fallback_loop, hl]
            rw [if_neg hcond, if_pos hok]
          rw [he, hfm]
          refine ⟨(List.nil_sublist ns).cons₂ n, ?_, ?_, ?_⟩
          · simp [List.find?, hok]
          · intro w hw
            simp only [Option.some.injEq] at hw
            rw [← hw]
          · intro hnone
            simp at hnone
        · have hokf : m.call_ok = false := by
            revert hok
            cases m.call_ok <;> simp
          have he : try_fallback_loop env (n :: ns) =
              ((try_fallback_loop env ns).1,
                n :: (try_fallback_loop env ns).2.1,
                (try_fallback_loop env ns).2.2) := by
            simp only [try_fallback_loop, hl]
            rw [if_neg hcond, if_neg (by simp [hokf])]
          rw [he, hfm]
          have hfind : ((m :: (ns.filterMap (lookupModel env)).filter
                (fun m => m.is_active && decide (¬m.health_status = Health.down))).find?
              (fun m => m.call_ok)) =
              (((ns.filterMap (lookupModel env)).filter
                (fun m => m.is_active && decide (¬m.health_status = Health.down))).find?
              (fun m => m.call_ok)) := by
            simp [List.find?, hokf]
          rw [hfind]
          exact ⟨ih1.cons₂ n, ih2, ih3, ih4⟩

/-- Claim C8: for a request whose primary call fails, fallback attempts
each other allowed active non-Down backend at most once, in plain
allowed-list iteration order without re-scoring (the winner is the first
candidate, in list order, whose call succeeds), never retrying the
failed primary; fallback happens only after the primary attempt fails;
intermediate failed attempts produce no usage record, and exactly one
usage record is emitted for the final outcome. -/
theorem C8_fallback_discipline (sub : SubData) (cost : ℚ) (env : List ModelProfile)
    (st : RouterState) (primary : ModelProfile)
    (hnd : sub.allowed_models.Nodup)
    (hsel : select_model env sub.allowed_models sub.priority_score = some primary)
    (hrate : (if sub.rate_limit_qps > 0 then
        check_rate_limit sub.rate_limit_qps st.bucket
      else (true, st.bucket)).1 = true)
    (hquota : (check_quota sub.daily_quota_limit cost st.quota).1 = true) :
    (primary.call_ok = true →
      (route_request sub cost env st).backendCalls = [primary.model_name] ∧
      (route_request sub cost env st).usageLogs = [(primary.model_name, true)]) ∧
    (primary.call_ok = false →
      (route_request sub cost env st).backendCalls =
        primary.model_name ::
          (try_fallback_models env sub.allowed_models primary.model_name).2.1 ∧
      (try_fallback_models env sub.allowed_models primary.model_name).2.1.Sublist
        (sub.allowed_models.filter (fun n => n ≠ primary.model_name)) ∧
      (try_fallback_models env sub.allowed_models primary.model_name).2.1.Nodup ∧
      primary.model_name ∉
        (try_fallback_models env sub.allowed_models primary.model_name).2.1 ∧
      (try_fallback_models env sub.allowed_models primary.model_name).1 =
        (((sub.allowed_models.filter (fun n => n ≠ primary.model_name)).filterMap
            (lookupModel env)).filter
          (fun m => m.is_active && decide (¬m.health_status = Health.down))).find?
          (fun m => m.call_ok) ∧
      ((∃ w, (try_fallback_models env sub.allowed_models primary.model_name).1 =
            some w ∧
          (route_request sub cost env st).status = 200 ∧
          (route_request sub cost env st).model = some w.model_name ∧
          (route_request sub cost env st).is_fallback = true ∧
          (route_request sub cost env st).usageLogs = [(w.model_name, true)]) ∨
        ((try_fallback_models env sub.allowed_models primary.model_name).1 = none ∧
          (route_request sub cost env st).status = 503 ∧
          (route_request sub cost env st).usageLogs =
            [(primary.model_name, false)]))) := by
  have hre : route_request sub cost env st =
      (if primary.call_ok then
        ⟨200, "", some primary.model_name, false, [primary.model_name],
          [(primary.model_name, true)],
          ⟨(check_quota sub.daily_quota_limit cost st.quota).2,
           (if sub.rate_limit_qps > 0 then
              check_rate_limit sub.rate_limit_qps st.bucket
            else (true, st.bucket)).2⟩⟩
      else
        match (try_fallback_models env sub.allowed_models primary.model_name).1 with
        | some w =>
          ⟨200, "", some w.model_name, true,
            primary.model_name ::
              (try_fallback_models env sub.allowed_models primary.model_name).2.1,
            (try_fallback_models env sub.allowed_models primary.model_name).2.2,
            ⟨(check_quota sub.daily_quota_limit cost st.quota).2,
             (if sub.rate_limit_qps > 0 then
                check_rate_limit sub.rate_limit_qps st.bucket
              else (true, st.bucket)).2⟩⟩
        | none =>
          ⟨503, "All models failed", none, false,
            primary.model_name ::
              (try_fallback_models env sub.allowed_models primary.model_name).2.1,
            (try_fallback_models env sub.allowed_models primary.model_name).2.2 ++
              [(primary.model_name, false)],
            ⟨(check_quota sub.daily_quota_limit cost st.quota).2,
             (if sub.rate_limit_qps > 0 then
                check_rate_limit sub.rate_limit_qps st.bucket
              else (true, st.bucket)).2⟩⟩) := by
    simp only [route_request]
    rw [if_neg (by simp [hrate]), if_neg (by simp [hquota]), hsel]
  obtain ⟨hsub, hfind, hlog_some, hlog_none⟩ :=
    try_fallback_loop_spec env
      (sub.allowed_models.filter (fun n => n ≠ primary.model_name))
  constructor
  · intro hok
    rw [hre, if_pos hok]
    exact ⟨rfl, rfl⟩
  · intro hfail
    rw [hre, if_neg (by simp [hfail])]
    have hcnd : (sub.allowed_models.filter
        (fun n => n ≠ primary.model_name)).Nodup := hnd.filter _
    have hnm : primary.model_name ∉
        sub.allowed_models.filter (fun n => n ≠ primary.model_name) := by
      simp [List.mem_filter]
    refine ⟨?_, hsub, hsub.nodup hcnd, fun hmem => hnm (hsub.subset hmem),
      hfind, ?_⟩
    · cases hfb : (try_fallback_models env sub.allowed_models primary.model_name).1 with
      | none => rfl
      | some w => rfl
    · cases hfb : (try_fallback_models env sub.allowed_models primary.model_name).1 with
      | none =>
        right
        have h22 : (try_fallback_models env sub.allowed_models
            primary.model_name).2.2 = [] := hlog_none hfb
        refine ⟨rfl, rfl, ?_⟩
        show (try_fallback_models env sub.allowed_models primary.model_name).2.2 ++
            [(primary.model_name, false)] = [(primary.model_name, false)]
        rw [h22]
        rfl
      | some w =>
        left
        have h22 : (try_fallback_models env sub.allowed_models
            primary.model_name).2.2 = [(w.model_name, true)] := hlog_some w hfb
        exact ⟨w, rfl, rfl, rfl, rfl, h22⟩

/-- Witness for `C8_fallback_discipline`: primary "P" is selected and its
call fails; "F1" is Down and is skipped without a call; "F2" succeeds. -/
theorem C8_fallback_discipline_witness :
    (route_request ⟨0, -1, 0, ["P", "F1", "F2"]⟩ 1 [modelP, modelF1, modelF2]
        ⟨none, none⟩).backendCalls =
      modelP.model_name ::
        (try_fallback_models [modelP, modelF1, modelF2] ["P", "F1", "F2"]
          modelP.model_name).2.1 :=
  ((C8_fallback_discipline ⟨0, -1, 0, ["P", "F1", "F2"]⟩ 1
      [modelP, modelF1, modelF2] ⟨none, none⟩ modelP
      (by decide)
      (by
        have h2 : ¬(Health.up = Health.down) := by decide
        have h3 : ¬(Health.up = Health.degraded) := by decide
        have hgt : ¬(get_routing_score modelF2 0 none >
            get_routing_score modelP 0 none) := by
          norm_num [get_routing_score, modelP, modelF2, pyOr, h2, h3]
        have hf : List.filter (candidate ["P", "F1", "F2"])
            [modelP, modelF1, modelF2] = [modelP, modelF2] := by
          simp [candidate, modelP, modelF1, modelF2]
        show select_model [modelP, modelF1, modelF2] ["P", "F1", "F2"] 0 =
          some modelP
        unfold select_model
        rw [hf]
        simp only [argmax_first]
        rw [if_neg hgt])
      (by norm_num)
      (by norm_num [check_quota])).2 rfl).1
